import Mathlib

set_option maxHeartbeats 1000000

/-!
Verification of the core of `commentator.py` (emeryberger/commentator).

The program manipulates Python abstract syntax trees (the CPython `ast`
module).  We shallowly embed the fragment of the Python AST that the
program's own functions inspect and build: module bodies, (async) function
definitions with the full `arguments` record (positional-only,
positional-or-keyword, vararg, keyword-only and kwarg parameters, with
defaults), class definitions, bare expression statements (string literals
among them are Python's documentation strings), `return`, plain and
annotated assignments, `if` statements, and `pass`.

The CPython parser itself is an external substrate (spec section 4.1: the
Syntax Tree Adapter).  A raw source string is therefore represented by the
outcome of parsing it: either a tree or the `SyntaxError` the parser raises.
Every function of the repository is translated arm by arm from the source;
the doc comment of each definition cites the lines it embeds.
-/

namespace Commentator

/-- Errors of the embedded Python code.  `parseError` is `SyntaxError` from
`ast.parse`; `valueError` is raised by `extract_function_ast` and
`replace_function`; `typeError` is e.g. subscripting `None`; `nameError` is
the `UnboundLocalError` (a `NameError`) from reading an unassigned local;
`attrError` is the `AttributeError` `ast.unparse` raises on a deleted AST
field; `indexError` is list indexing out of range; `systemExit` models
`sys.exit(1)`. -/
inductive PyErr where
  | parseError
  | valueError
  | typeError
  | nameError
  | attrError
  | indexError
  | systemExit
deriving DecidableEq, Repr

mutual

/-- Python expressions, restricted to the shapes the program inspects or the
claims exercise.  `constStr` is a string constant (`ast.Str`, i.e. an
`ast.Constant` holding a `str`). -/
inductive Expr where
  | name (id : String)
  | constStr (s : String)
  | constInt (n : Int)
  | constNone
  | unaryOp (op : String) (operand : Expr)
  | binOp (left : Expr) (op : String) (right : Expr)
  | cmpOp (left : Expr) (op : String) (right : Expr)
  | call (func : Expr) (args : List Expr)

/-- One formal parameter (`ast.arg`): its name and optional type hint
(the `annotation` field of the CPython node). -/
inductive Arg where
  | mk (name : String) (ann : Option Expr)

/-- The CPython `ast.arguments` record: positional-only parameters,
positional-or-keyword parameters (`args.args` in the source), `*vararg`,
keyword-only parameters with their defaults, `**kwarg`, and positional
defaults. -/
inductive Arguments where
  | mk (posonlyargs : List Arg) (args : List Arg) (vararg : Option Arg)
      (kwonlyargs : List Arg) (kwDefaults : List (Option Expr))
      (kwarg : Option Arg) (defaults : List Expr)

/-- A function definition (`ast.FunctionDef` / `ast.AsyncFunctionDef`,
tagged by `isAsync`): name, parameters, body, decorators and the optional
return type hint (the `returns` field). -/
inductive FunctionNode where
  | mk (isAsync : Bool) (name : String) (args : Arguments)
      (body : List Stmt) (decorators : List Expr) (returns : Option Expr)

/-- Python statements.  `exprStmt` is `ast.Expr` (a bare expression
statement); `annAssign` is an annotated assignment whose `ann` field is
`none` exactly when the program has executed `del node.annotation`
(the parser always produces `some`). -/
inductive Stmt where
  | functionDef (f : FunctionNode)
  | classDef (name : String) (body : List Stmt)
  | exprStmt (value : Expr)
  | ret (value : Option Expr)
  | assign (targets : List Expr) (value : Expr)
  | annAssign (target : Expr) (ann : Option Expr) (value : Option Expr)
  | ifStmt (test : Expr) (body : List Stmt) (orelse : List Stmt)
  | pass

end

/-- A parsed file (`ast.Module`): its list of top-level statements. -/
structure Module where
  body : List Stmt

def Arg.name : Arg → String
  | .mk n _ => n

def Arg.ann : Arg → Option Expr
  | .mk _ a => a

def Arguments.posonlyargs : Arguments → List Arg
  | .mk po _ _ _ _ _ _ => po

def Arguments.args : Arguments → List Arg
  | .mk _ a _ _ _ _ _ => a

def Arguments.vararg : Arguments → Option Arg
  | .mk _ _ v _ _ _ _ => v

def Arguments.kwonlyargs : Arguments → List Arg
  | .mk _ _ _ ko _ _ _ => ko

def Arguments.kwDefaults : Arguments → List (Option Expr)
  | .mk _ _ _ _ kd _ _ => kd

def Arguments.kwarg : Arguments → Option Arg
  | .mk _ _ _ _ _ kw _ => kw

def Arguments.defaults : Arguments → List Expr
  | .mk _ _ _ _ _ _ d => d

def FunctionNode.isAsync : FunctionNode → Bool
  | .mk a _ _ _ _ _ => a

def FunctionNode.name : FunctionNode → String
  | .mk _ n _ _ _ _ => n

def FunctionNode.args : FunctionNode → Arguments
  | .mk _ _ ar _ _ _ => ar

def FunctionNode.body : FunctionNode → List Stmt
  | .mk _ _ _ b _ _ => b

def FunctionNode.decorators : FunctionNode → List Expr
  | .mk _ _ _ _ d _ => d

def FunctionNode.returns : FunctionNode → Option Expr
  | .mk _ _ _ _ _ r => r

/-- A raw Python source string, represented by the outcome of `ast.parse`
on it: the parsed tree, or the `SyntaxError` the parser raises (spec
section 4.1; the parser is an external collaborator). -/
abbrev PySrc := Except PyErr Module

/-! ## The normalizer

`compare_python_code` (lines 119-132) runs
`for node in ast.walk(tree): remove_comments(node); remove_annotations(node)`
over both trees.  `ast.walk` enqueues a node's children before the caller
mutates the node, and the two mutators only blank string constants, filter
statement lists (keeping the surviving original child objects) and clear
`annotation` / `returns` fields, so no node that remains in the tree escapes
its visit.  The net effect on the tree is the recursive transformation
below:

* `remove_comments` (lines 107-117): in every `FunctionDef`,
  `AsyncFunctionDef`, `ClassDef` and `Module` body, the leading docstring is
  blanked and then every bare string-literal statement is removed (the blank
  is subsumed by the removal); a bare string-literal statement anywhere else
  (e.g. inside an `if` branch) has its text blanked to `''`.
* `remove_annotations` (lines 93-105): on an `AnnAssign` the `annotation`
  field is deleted (`del node.annotation  # FIXME?`), which we record as
  `none`; on a function the `annotation` of every entry of `args.args` (and
  only of `args.args`) is set to `None`, and `returns` is set to `None`.
-/

/-- Clears the type hints of the positional-or-keyword parameters, the only
ones `remove_annotations` touches (line 103 iterates `node.args.args`). -/
def clearArgsAnns : List Arg → List Arg
  | [] => []
  | .mk n _ :: r => .mk n none :: clearArgsAnns r

/-- Effect of `remove_annotations` (line 102-105) on an `arguments` record:
positional-only, keyword-only, vararg and kwarg hints are left in place. -/
def stripArguments : Arguments → Arguments
  | .mk po a v ko kd kw d => .mk po (clearArgsAnns a) v ko kd kw d

mutual

/-- Net effect of visiting one statement (and its subtree) in the
`ast.walk` loop of `compare_python_code`, lines 122-127. -/
def stripStmt : Stmt → Stmt
  | .functionDef (.mk a n ar body d _) =>
      .functionDef (.mk a n (stripArguments ar) (stripDocBody body) d none)
  | .classDef n body => .classDef n (stripDocBody body)
  | .exprStmt (.constStr _) => .exprStmt (.constStr "")
  | .exprStmt e => .exprStmt e
  | .annAssign t _ v => .annAssign t none v
  | .ifStmt t b o => .ifStmt t (stripSeq b) (stripSeq o)
  | .ret v => .ret v
  | .assign ts v => .assign ts v
  | .pass => .pass

/-- Body of a module, class or function: line 113-115 of `remove_comments`
removes every bare string-literal statement, and the walk then visits the
survivors. -/
def stripDocBody : List Stmt → List Stmt
  | [] => []
  | .exprStmt (.constStr _) :: r => stripDocBody r
  | s :: r => stripStmt s :: stripDocBody r

/-- A statement list that is not a docstring-bearing body (an `if` branch):
the walk visits each element; bare string statements are only blanked
(line 116-117). -/
def stripSeq : List Stmt → List Stmt
  | [] => []
  | s :: r => stripStmt s :: stripSeq r

end

/-- The whole-tree normalization of `compare_python_code`, lines 122-127. -/
def stripModule (m : Module) : Module :=
  ⟨stripDocBody m.body⟩

/-! ## The serializer

`ast.unparse`, an external substrate like the parser.  We embed it far
enough to be a faithful serializer of the modelled constructs: it produces
one line per simple statement with four-space indentation, and — the
behaviour `compare_python_code` silently depends on — it raises
`AttributeError` when it meets an `AnnAssign` whose `annotation` field has
been deleted by `remove_annotations` (string escaping and minimal
parenthesisation are elided; no theorem depends on them). -/

def indentOf (lvl : Nat) : String :=
  String.mk (List.replicate (4 * lvl) ' ')

mutual

def unparseExpr : Expr → String
  | .name id => id
  | .constStr s => "'" ++ s ++ "'"
  | .constInt n => toString n
  | .constNone => "None"
  | .unaryOp op e => op ++ unparseExpr e
  | .binOp l op r => unparseExpr l ++ " " ++ op ++ " " ++ unparseExpr r
  | .cmpOp l op r => unparseExpr l ++ " " ++ op ++ " " ++ unparseExpr r
  | .call f args => unparseExpr f ++ "(" ++ String.intercalate ", " (unparseExprList args) ++ ")"

def unparseExprList : List Expr → List String
  | [] => []
  | e :: r => unparseExpr e :: unparseExprList r

end

def unparseArg (a : Arg) : String :=
  match a with
  | .mk n none => n
  | .mk n (some t) => n ++ ": " ++ unparseExpr t

/-- Serializes an `arguments` record the way `ast.unparse` lays it out:
positional-only parameters then `/`, positional-or-keyword parameters with
the trailing defaults, `*vararg` (or a bare `*` before keyword-only
parameters), keyword-only parameters with their defaults, `**kwarg`. -/
def unparseArguments (ar : Arguments) : String :=
  match ar with
  | .mk po a v ko kd kw d =>
    let combined := po ++ a
    let cut := combined.length - d.length
    let withDefaults := combined.enum.map fun p =>
      match p with
      | (i, arg) =>
        match d[i - cut]? with
        | some dv => if cut ≤ i then unparseArg arg ++ "=" ++ unparseExpr dv else unparseArg arg
        | none => unparseArg arg
    let poMark := if po.isEmpty then withDefaults else
      (withDefaults.take po.length) ++ ["/"] ++ (withDefaults.drop po.length)
    let star :=
      match v with
      | some va => ["*" ++ unparseArg va]
      | none => if ko.isEmpty then [] else ["*"]
    let kos := (ko.zip (kd ++ List.replicate ko.length none)).map fun p =>
      match p with
      | (arg, some dv) => unparseArg arg ++ "=" ++ unparseExpr dv
      | (arg, none) => unparseArg arg
    let kws :=
      match kw with
      | some ka => ["**" ++ unparseArg ka]
      | none => []
    String.intercalate ", " (poMark ++ star ++ kos ++ kws)

mutual

/-- Serializes one statement to its lines.  On an `AnnAssign` whose
`annotation` was deleted, CPython's unparser touches the missing field and
raises `AttributeError` — the error the bare `except:` of
`compare_python_code` (line 131) converts to `False`. -/
def unparseStmt (lvl : Nat) : Stmt → Except PyErr (List String)
  | .functionDef (.mk a n ar body d r) =>
      match unparseBody (lvl + 1) body with
      | .error e => .error e
      | .ok bodyLines =>
        let decLines := d.map fun e => indentOf lvl ++ "@" ++ unparseExpr e
        let retStr :=
          match r with
          | none => ""
          | some t => " -> " ++ unparseExpr t
        let header := indentOf lvl ++ (if a then "async def " else "def ") ++ n ++ "(" ++
          unparseArguments ar ++ ")" ++ retStr ++ ":"
        .ok (decLines ++ [header] ++ bodyLines)
  | .classDef n body =>
      match unparseBody (lvl + 1) body with
      | .error e => .error e
      | .ok bodyLines => .ok ((indentOf lvl ++ "class " ++ n ++ ":") :: bodyLines)
  | .exprStmt e => .ok [indentOf lvl ++ unparseExpr e]
  | .ret none => .ok [indentOf lvl ++ "return"]
  | .ret (some e) => .ok [indentOf lvl ++ "return " ++ unparseExpr e]
  | .assign ts v =>
      .ok [indentOf lvl ++ String.intercalate " = " (unparseExprList ts) ++ " = " ++ unparseExpr v]
  | .annAssign _ none _ => .error .attrError
  | .annAssign t (some a) v =>
      let valStr :=
        match v with
        | none => ""
        | some e => " = " ++ unparseExpr e
      .ok [indentOf lvl ++ unparseExpr t ++ ": " ++ unparseExpr a ++ valStr]
  | .ifStmt t b o =>
      match unparseBody (lvl + 1) b with
      | .error e => .error e
      | .ok bLines =>
        match unparseBody (lvl + 1) o with
        | .error e => .error e
        | .ok oLines =>
          let header := indentOf lvl ++ "if " ++ unparseExpr t ++ ":"
          if o.isEmpty then .ok (header :: bLines)
          else .ok ((header :: bLines) ++ [indentOf lvl ++ "else:"] ++ oLines)
  | .pass => .ok [indentOf lvl ++ "pass"]

def unparseBody (lvl : Nat) : List Stmt → Except PyErr (List String)
  | [] => .ok []
  | s :: r =>
      match unparseStmt lvl s with
      | .error e => .error e
      | .ok ls =>
        match unparseBody lvl r with
        | .error e => .error e
        | .ok rs => .ok (ls ++ rs)

end

/-- Serialization of a module, as `ast.unparse` does it: its statements' lines joined by newlines. -/
def unparseModule (m : Module) : Except PyErr String :=
  match unparseBody 0 m.body with
  | .error e => .error e
  | .ok ls => .ok (String.intercalate "\n" ls)

/-- Embedding of `compare_python_code` (lines 119-132).  `ast.parse` on the two raw
strings runs OUTSIDE the `try:` block, so a `SyntaxError` propagates to the
caller; only the two `ast.unparse` calls and the string comparison are
guarded by the bare `except:` that returns `False`. -/
def compare_python_code (code1 code2 : PySrc) : Except PyErr Bool :=
  match code1 with
  | .error e => .error e
  | .ok tree1 =>
    match code2 with
    | .error e => .error e
    | .ok tree2 =>
      let t1 := stripModule tree1
      let t2 := stripModule tree2
      match unparseModule t1, unparseModule t2 with
      | .ok s1, .ok s2 => .ok (s1 == s2)
      | _, _ => .ok false

/-! ## `ast.walk` and the completeness checkers

`has_types` (lines 134-151) and `has_docstring` (lines 153-168) iterate
`ast.walk(tree)`, a breadth-first traversal (a deque seeded with the root,
popped left, extended with each node's children).  Function definitions only
occur below statement nodes, never below bare expressions, so the restriction
of the traversal to statements preserves the order in which function
definitions are encountered. -/

/-- Child statements of a statement, in `ast.iter_child_nodes` field
order. -/
def stmtChildren : Stmt → List Stmt
  | .functionDef (.mk _ _ _ body _ _) => body
  | .classDef _ body => body
  | .ifStmt _ b o => b ++ o
  | _ => []

mutual

def stmtSize : Stmt → Nat
  | .functionDef (.mk _ _ _ body _ _) => bodySize body + 1
  | .classDef _ body => bodySize body + 1
  | .ifStmt _ b o => bodySize b + bodySize o + 1
  | _ => 1

def bodySize : List Stmt → Nat
  | [] => 0
  | s :: r => stmtSize s + bodySize r

end

theorem bodySize_append (a b : List Stmt) :
    bodySize (a ++ b) = bodySize a + bodySize b := by
  induction a with
  | nil => simp [bodySize]
  | cons s r ih => simp [bodySize, ih]; omega

theorem bodySize_children_lt (s : Stmt) : bodySize (stmtChildren s) < stmtSize s := by
  cases s with
  | functionDef f => cases f with
    | mk a n ar body d r => simp [stmtChildren, stmtSize]
  | classDef n body => simp [stmtChildren, stmtSize]
  | ifStmt t b o => simp [stmtChildren, stmtSize, bodySize_append]
  | _ => simp [stmtChildren, stmtSize, bodySize]

/-- Breadth-first statement traversal: the statement-level restriction of
`ast.walk` applied to a queue of pending nodes. -/
def walkStmts (q : List Stmt) : List Stmt :=
  match q with
  | [] => []
  | s :: rest => s :: walkStmts (rest ++ stmtChildren s)
termination_by bodySize q
decreasing_by
  simp [bodySize, bodySize_append]
  have := bodySize_children_lt s
  omega

theorem walkStmts_nil : walkStmts [] = [] := by
  simp [walkStmts]

theorem walkStmts_cons (s : Stmt) (rest : List Stmt) :
    walkStmts (s :: rest) = s :: walkStmts (rest ++ stmtChildren s) := by
  rw [walkStmts]

/-- A fragment containing exactly one function definition: the tree that
`ast.parse` yields on the text `ast.unparse` produced for the node (the
serialize/parse round trip of spec section 4.1). -/
def mkFragment (f : FunctionNode) : Module :=
  ⟨[.functionDef f]⟩

/-- Embedding of `has_types` (lines 134-151): on the first `FunctionDef` or
`AsyncFunctionDef` met by `ast.walk` it returns whether every entry of
`node.args.args` has a non-`None` `annotation` and `node.returns` is not
`None`; `False` when the walk meets no function.  Positional-only,
keyword-only, vararg and kwarg parameters are never inspected. -/
def has_types (m : Module) : Bool :=
  match (walkStmts m.body).findSome? (fun s =>
      match s with
      | .functionDef f => some f
      | _ => none) with
  | some f => (f.args.args.all fun a => a.ann.isSome) && f.returns.isSome
  | none => false

/-- The test `has_docstring` performs on one walked node (lines 164-167):
on a function whose first body statement is a bare string literal it
answers `len(s) > 0`; on any other node the walk continues. -/
def docstringProbe : Stmt → Option Bool
  | .functionDef f =>
    match f.body with
    | .exprStmt (.constStr s) :: _ => some (decide (0 < s.length))
    | _ => none
  | _ => none

/-- Embedding of `has_docstring` (lines 153-168): walks the tree and returns, for the
FIRST function whose leading body statement is a string literal, whether
that string is non-empty; `False` when the walk finds no such function.
A function whose first statement is not a string does not stop the walk,
so a nested function's docstring can decide the answer. -/
def has_docstring (m : Module) : Bool :=
  ((walkStmts m.body).findSome? docstringProbe).getD false

/-- Embedding of `enumerate_functions` (lines 205-217): names of the top-level (sync or
async) function definitions, in source order. -/
def enumerate_functions (m : Module) : List String :=
  m.body.filterMap fun s =>
    match s with
    | .functionDef f => some f.name
    | _ => none

/-- The generator expression of `extract_function_ast` (line 192) and
`replace_function` (line 231): the first top-level function definition with
the given name. -/
def find_function : List Stmt → String → Option FunctionNode
  | [], _ => none
  | .functionDef f :: r, nm => if f.name = nm then some f else find_function r nm
  | _ :: r, nm => find_function r nm

/-- Embedding of `extract_function_ast` (lines 177-195): the first top-level function
with the given name, or the `ValueError` raised when there is none. -/
def extract_function_ast (m : Module) (function_name : String) : Except PyErr FunctionNode :=
  match find_function m.body function_name with
  | some f => .ok f
  | none => .error .valueError

/-- Embedding of `extract_function_source` (lines 197-198), which returns
`ast.unparse(extract_function_ast(...))`, a string the driver immediately
re-parses; by the round trip of spec section 4.1 that parse yields the
fragment holding the extracted node. -/
def extract_function_source (m : Module) (function_name : String) : Except PyErr Module :=
  match extract_function_ast m function_name with
  | .error e => .error e
  | .ok f => .ok (mkFragment f)

/-! ## The splicer -/

def FunctionNode.withBodyReturns : FunctionNode → List Stmt → Option Expr → FunctionNode
  | .mk a n ar _ d _, b, r => .mk a n ar b d r

def FunctionNode.withArgsArgs : FunctionNode → List Arg → FunctionNode
  | .mk a n (.mk po _ v ko kd kw d) b dec r, newArgs =>
      .mk a n (.mk po newArgs v ko kd kw d) b dec r

/-- Embedding of `update_args` (lines 47-68): builds the replacement parameter list by
iterating the DONOR's `args.args`; a donor parameter whose name occurs in
the host is rebuilt as `ast.arg(arg=arg.arg, annotation=arg.annotation)`
from the DONOR's fields (the fetched `old_arg` is unused), any other donor
parameter is kept as is, and the host's `args.args` is overwritten with
this list.  Host parameters whose names are absent from the donor are
consequently dropped. -/
def update_args (old_f new_f : FunctionNode) : FunctionNode :=
  let arg_names := (old_f.args.args).map Arg.name
  let new_args := (new_f.args.args).map fun arg =>
    if arg_names.contains arg.name then Arg.mk arg.name arg.ann else arg
  old_f.withArgsArgs new_args

/-- The in-place mutation `replace_function` performs on the located host
node (lines 235-237): `body` and `returns` are taken from the donor, then
`update_args` rewrites `args.args`. -/
def mergeFn (host donor : FunctionNode) : FunctionNode :=
  update_args (host.withBodyReturns donor.body donor.returns) donor

/-- The host body after the in-place mutation: the FIRST top-level function
with the given name is rewritten, everything else is left as it was. -/
def replaceFirstFn : List Stmt → String → FunctionNode → List Stmt
  | [], _, _ => []
  | .functionDef f :: r, nm, g =>
      if f.name = nm then .functionDef (mergeFn f g) :: r
      else .functionDef f :: replaceFirstFn r nm g
  | s :: r, nm, g => s :: replaceFirstFn r nm g

/-- Embedding of `replace_function` (lines 219-238): locates the named top-level function
in the host (`ValueError` when absent), extracts the function of the same
name from the donor fragment (`ValueError` when absent), mutates the host
node in place and returns the re-serialized program (the driver re-parses
it; by the round trip of spec section 4.1 we return the tree itself). -/
def replace_function (program : Module) (function_name : String) (donor : Module) :
    Except PyErr Module :=
  match find_function program.body function_name with
  | none => .error .valueError
  | some _ =>
    match extract_function_ast donor function_name with
    | .error e => .error e
    | .ok g => .ok ⟨replaceFirstFn program.body function_name g⟩

def isFunctionDefStmt : Stmt → Bool
  | .functionDef _ => true
  | _ => false

/-- Embedding of `remove_code_before_function` (lines 73-91): slices the text of its
input at the line of the first function definition `ast.walk` meets; when
no function exists the `for`-`else` returns the code unchanged.  Modelled
at tree level: the top-level statements before the first top-level function
definition are dropped. -/
def remove_code_before_function (m : Module) : Module :=
  if m.body.any isFunctionDefStmt then
    ⟨m.body.dropWhile fun s => !isFunctionDefStmt s⟩
  else m

/-! ## String helpers of the driver

`find_code_start` and the slicing in `commentate` work on raw response
text.  Python strings are modelled by their character lists (`String.data`);
`str.strip`, `str.split`, `str.startswith`, `str.find` and slicing are
reproduced below. -/

/-- The whitespace of Python's `str.strip()`. -/
def pyIsSpace (c : Char) : Bool :=
  c = ' ' || c = '\t' || c = '\n' || c = '\r' || c = '\x0b' || c = '\x0c'

def pyStrip (l : List Char) : List Char :=
  ((l.dropWhile pyIsSpace).reverse.dropWhile pyIsSpace).reverse

/-- Python `str.split(sep)` for a one-character separator: `''.split(sep)`
is `['']`. -/
def splitOnChar (sep : Char) : List Char → List (List Char)
  | [] => [[]]
  | c :: r =>
    if c = sep then [] :: splitOnChar sep r
    else
      match splitOnChar sep r with
      | [] => [[c]]
      | h :: t => (c :: h) :: t

/-- Python `str.find(sub, start)` scanning from absolute index `i`. -/
def findSub (sub : List Char) : List Char → Nat → Option Nat
  | [], i => if sub.isEmpty then some i else none
  | c :: r, i => if sub.isPrefixOf (c :: r) then some i else findSub sub r (i + 1)

/-- Python `text.find(sub, start)`: the lowest index at or after `start`
where `sub` occurs, `-1` when there is none. -/
def pyFind (s : String) (sub : String) (start : Int) : Int :=
  match findSub sub.data (s.data.drop start.toNat) start.toNat with
  | some i => (i : Int)
  | none => -1

/-- Python `text[a:b]` for `0 ≤ a, b`. -/
def pySlice (s : String) (a b : Int) : String :=
  String.mk ((s.data.drop a.toNat).take (b.toNat - a.toNat))

def countLeadingBlank : List (List Char) → Nat
  | [] => 0
  | l :: r => if pyStrip l = [] then countLeadingBlank r + 1 else 0

/-- Embedding of `find_code_start` (lines 277-289): skips leading blank lines (raising
`IndexError` when every line is blank, since the loop leaves `i` equal to
`len(lines)` and `lines[i]` is then out of range), answers `3` for a bare
"```" fence, `len(word) + 3` for a "```word" fence, and `-1` otherwise. -/
def find_code_start (code : String) : Except PyErr Int :=
  let lines := splitOnChar '\n' code.data
  match lines.drop (countLeadingBlank lines) with
  | [] => .error .indexError
  | l :: _ =>
    let first_line := pyStrip l
    if first_line = "```".data then .ok 3
    else if "```".data.isPrefixOf first_line then
      let word := pyStrip (first_line.drop 3)
      if 0 < word.length && !(word.contains ' ') then .ok ((word.length : Int) + 3)
      else .ok (-1)
    else .ok (-1)

/-- The extension-to-language table of `get_language_from_file_name`
(line 271). -/
def language_map : List (String × String) :=
  [("js", "JavaScript"), ("ts", "TypeScript"), ("c", "C"), ("cpp", "C++"),
   ("cs", "C#"), ("swift", "Swift"), ("py", "Python"), ("rs", "Rust"),
   ("sql", "SQL"), ("css", "CSS"), ("php", "PHP"), ("rb", "Ruby"),
   ("kt", "Kotlin"), ("go", "Go"), ("r", "R"), ("java", "Java"),
   ("h", "C"), ("hpp", "C++"), ("hxx", "C++")]

/-- Embedding of `get_language_from_file_name` (lines 261-275): the last `'.'`-separated
component of the file name looked up in the table, `""` when unknown. -/
def get_language_from_file_name (file_name : String) : String :=
  let ext := String.mk ((splitOnChar '.' file_name.data).getLastD [])
  match language_map.lookup ext with
  | some l => l
  | none => ""

/-! ## The generation collaborator and the driver loop -/

/-- One backend outcome, as the `try:` of `get_comments` distinguishes
them: a chat completion carrying its message content, a transient
`openai.error.APIError`, or an `openai.error.AuthenticationError`. -/
inductive BackendResponse where
  | completion (text : String)
  | apiError
  | authError

/-- Embedding of `get_comments` (lines 13-45).  The prompt strings only shape the
request to the external service, whose reply the response oracle supplies,
so they carry no information here.  An `AuthenticationError` prints an
operator-facing diagnostic pointing at the missing OpenAI key and calls
`sys.exit(1)` (modelled by `systemExit`, which no caller catches); an
`APIError` — the transient server-side failure — returns `None`; otherwise
the completion object is returned. -/
def get_comments : BackendResponse → Except PyErr (Option String)
  | .completion t => .ok (some t)
  | .apiError => .ok none
  | .authError => .error .systemExit

/-- The subscription `c['choices'][0]['message']['content']` of line 327:
on a completion it yields the message content; when `get_comments`
returned `None` it raises `TypeError` (`'NoneType' object is not
subscriptable`). -/
def completion_content : Option String → Except PyErr String
  | some t => .ok t
  | none => .error .typeError

/-- The `while tries < max_tries` loop body of `commentate`
(lines 316-356) for one function, with `fuel` the remaining attempts and
`k` the number of generation requests issued so far.

* `parseFn` is `ast.parse` on the raw candidate string (the external
  Syntax Tree Adapter); `backend` is the generation collaborator's reply
  to the `k`-th request of the run.
* The candidate string `code_block` and its parse result are carried side
  by side; `compare_python_code` and `has_types` re-parse the very string
  that `result_ast` was parsed from, so they receive that tree.
* When the file name does not map to `Python`, the `try:` of line 335 that
  assigns `result_ast` is skipped, and the `if result_ast:` of line 341
  reads a local that was never assigned — an `UnboundLocalError`, i.e. a
  `NameError` (the variable is assigned on no earlier path: the only
  assignments sit inside the skipped branch). -/
def commentate_try (parseFn : String → Option Module) (backend : Nat → BackendResponse)
    (filename : String) (code : Module) (func_name : String) :
    Nat → Nat → Except PyErr (Module × Nat)
  | 0, k => .ok (code, k)
  | fuel + 1, k =>
    match extract_function_source code func_name with
    | .error e => .error e
    | .ok the_code =>
      if has_docstring the_code && has_types the_code then
        .ok (code, k)
      else
        match get_comments (backend k) with
        | .error e => .error e
        | .ok completion =>
          match completion_content completion with
          | .error e => .error e
          | .ok text =>
            match find_code_start text with
            | .error e => .error e
            | .ok first_index =>
              let second_index := pyFind text "```" (first_index + 1)
              let code_block :=
                if first_index = -1 || second_index = -1 then text
                else pySlice text first_index second_index
              if get_language_from_file_name filename = "Python" then
                match parseFn code_block with
                | some result_ast =>
                  match compare_python_code
                      (.ok (remove_code_before_function the_code))
                      (.ok (remove_code_before_function result_ast)) with
                  | .error e => .error e
                  | .ok cmp =>
                    if cmp then
                      if code_block = "" then
                        commentate_try parseFn backend filename code func_name fuel (k + 1)
                      else if has_types result_ast then
                        match replace_function code func_name result_ast with
                        | .error e => .error e
                        | .ok code2 => .ok (code2, k + 1)
                      else
                        commentate_try parseFn backend filename code func_name fuel (k + 1)
                    else
                      commentate_try parseFn backend filename code func_name fuel (k + 1)
                | none =>
                  commentate_try parseFn backend filename code func_name fuel (k + 1)
              else .error .nameError

/-- The `for func_name in enumerate_functions(code)` loop of `commentate`
(line 314), threading the working file and the request count; an uncaught
exception of the body aborts the whole run. -/
def commentate_go (parseFn : String → Option Module) (backend : Nat → BackendResponse)
    (filename : String) :
    List String → Module → Nat → Except PyErr (Module × Nat)
  | [], code, k => .ok (code, k)
  | n :: ns, code, k =>
    match commentate_try parseFn backend filename code n 3 k with
    | .error e => .error e
    | .ok (code2, k2) => commentate_go parseFn backend filename ns code2 k2

/-- Embedding of `commentate` (lines 292-357): processes the functions of the initial
enumeration in order with an attempt budget (`max_tries`) of 3 each.  (The
optional `language` argument only adds a translation directive to the
prompt, which the response oracle subsumes.) -/
def commentate (parseFn : String → Option Module) (backend : Nat → BackendResponse)
    (filename : String) (code : Module) : Except PyErr (Module × Nat) :=
  commentate_go parseFn backend filename (enumerate_functions code) code 0

/-! ## Claim-side predicates

Two definitions follow the SPEC's words (sections 4.4 and 8), to be
compared with the checkers translated from the code. -/

/-- The fragment's function: the first top-level function definition. -/
def firstTopFunction (m : Module) : Option FunctionNode :=
  m.body.findSome? fun s =>
    match s with
    | .functionDef f => some f
    | _ => none

/-- Stated from the spec's words: "true iff the function's first body
statement is a string-literal expression with non-empty text". -/
def specHasDocumentation (m : Module) : Bool :=
  match firstTopFunction m with
  | some f =>
    match f.body with
    | .exprStmt (.constStr s) :: _ => decide (0 < s.length)
    | _ => false
  | none => false

/-- Every parameter of a function, of all five kinds. -/
def allParameters (ar : Arguments) : List Arg :=
  ar.posonlyargs ++ ar.args ++ ar.vararg.toList ++ ar.kwonlyargs ++ ar.kwarg.toList

/-- Stated from the spec's words: "true iff every parameter and the return
position carry a non-empty annotation". -/
def specIsFullyTyped (m : Module) : Bool :=
  match firstTopFunction m with
  | some f => ((allParameters f.args).all fun a => a.ann.isSome) && f.returns.isSome
  | none => false

/-! ## Sample programs -/

/-- Fragment `def f():\n    x: int = 0` — an annotated assignment in the body. -/
def fragAnnInt : Module :=
  ⟨[.functionDef (.mk false "f" (.mk [] [] none [] [] none [])
      [.annAssign (.name "x") (some (.name "int")) (some (.constInt 0))] [] none)]⟩

/-- Fragment `def f():\n    x: str = 0` — differs from `fragAnnInt` only in the
type hint of the annotated assignment. -/
def fragAnnStr : Module :=
  ⟨[.functionDef (.mk false "f" (.mk [] [] none [] [] none [])
      [.annAssign (.name "x") (some (.name "str")) (some (.constInt 0))] [] none)]⟩

/-- The `abs` function of the source's own `test2` string (line 70):
no docstring, no type hints. -/
def absPlainFn : FunctionNode :=
  .mk false "abs" (.mk [] [.mk "n" none] none [] [] none [])
    [.ifStmt (.cmpOp (.name "n") "<" (.constInt 0))
      [.ret (some (.unaryOp "-" (.name "n")))]
      [.ret (some (.name "n"))]] [] none

/-- The `abs` function of the source's own `test` string (line 69): same
code with the docstring `" WUT "`. -/
def absDocFn : FunctionNode :=
  .mk false "abs" (.mk [] [.mk "n" none] none [] [] none [])
    [.exprStmt (.constStr " WUT "),
     .ifStmt (.cmpOp (.name "n") "<" (.constInt 0))
      [.ret (some (.unaryOp "-" (.name "n")))]
      [.ret (some (.name "n"))]] [] none

/-- Function `abs` with a docstring, a typed parameter and a typed return. -/
def absTypedFn : FunctionNode :=
  .mk false "abs" (.mk [] [.mk "n" (some (.name "int"))] none [] [] none [])
    [.exprStmt (.constStr "Absolute value."),
     .ifStmt (.cmpOp (.name "n") "<" (.constInt 0))
      [.ret (some (.unaryOp "-" (.name "n")))]
      [.ret (some (.name "n"))]] [] (some (.name "int"))

def modPlain : Module := ⟨[.functionDef absPlainFn]⟩

def modTyped : Module := ⟨[.functionDef absTypedFn]⟩

/-- Fragment `def f():` containing only a nested `def g():` whose first statement is
the docstring `"doc"`; the outer function has no docstring. -/
def nestedDocFn : FunctionNode :=
  .mk false "f" (.mk [] [] none [] [] none [])
    [.functionDef (.mk false "g" (.mk [] [] none [] [] none [])
      [.exprStmt (.constStr "doc")] [] none)] [] none

/-- Fragment `def f(a: int, *, b) -> int: pass` — the keyword-only parameter `b`
has no type hint. -/
def kwOnlyFn : FunctionNode :=
  .mk false "f" (.mk [] [.mk "a" (some (.name "int"))] none [.mk "b" none] [none] none [])
    [.pass] [] (some (.name "int"))

/-- Host for the splicer claims: `def f(a, b): pass`. -/
def hostFnAB : FunctionNode :=
  .mk false "f" (.mk [] [.mk "a" none, .mk "b" none] none [] [] none []) [.pass] [] none

def hostAB : Module := ⟨[.functionDef hostFnAB]⟩

/-- Donor: `def f(c, a: int): pass` — `b` is absent, `c` is new. -/
def donorFnCA : FunctionNode :=
  .mk false "f" (.mk [] [.mk "c" none, .mk "a" (some (.name "int"))] none [] [] none [])
    [.pass] [] none

def donorCA : Module := ⟨[.functionDef donorFnCA]⟩

/-- Host for the frame claim: `def f(a): return a` followed by a second
top-level function `def g(): pass`. -/
def hostFnA : FunctionNode :=
  .mk false "f" (.mk [] [.mk "a" none] none [] [] none []) [.ret (some (.name "a"))] [] none

def otherFnG : FunctionNode :=
  .mk false "g" (.mk [] [] none [] [] none []) [.pass] [] none

def hostA : Module := ⟨[.functionDef hostFnA, .functionDef otherFnG]⟩

/-- Donor renaming the parameter: `def f(x): return x`. -/
def donorFnX : FunctionNode :=
  .mk false "f" (.mk [] [.mk "x" none] none [] [] none []) [.ret (some (.name "x"))] [] none

def donorX : Module := ⟨[.functionDef donorFnX]⟩

/-- The positional-or-keyword parameter names of the first top-level
function of a module. -/
def topArgNames (m : Module) : List String :=
  match firstTopFunction m with
  | some f => f.args.args.map Arg.name
  | none => []

/-! ## Helper lemmas -/

/-- Whether a statement is a function definition carrying the given name. -/
def isFnNamed : Stmt → String → Bool
  | .functionDef f, nm => decide (f.name = nm)
  | _, _ => false

theorem find_function_cons_skip (s : Stmt) (rest : List Stmt) (nm : String)
    (h : isFnNamed s nm = false) :
    find_function (s :: rest) nm = find_function rest nm := by
  cases s <;> simp_all [find_function, isFnNamed]

theorem find_function_append_skip (pre rest : List Stmt) (nm : String)
    (h : ∀ s ∈ pre, isFnNamed s nm = false) :
    find_function (pre ++ rest) nm = find_function rest nm := by
  induction pre with
  | nil => rfl
  | cons s r ih =>
    rw [List.cons_append, find_function_cons_skip s (r ++ rest) nm (h s (by simp))]
    exact ih fun x hx => h x (by simp [hx])

theorem find_function_cons_hit (f : FunctionNode) (rest : List Stmt) (nm : String)
    (hf : f.name = nm) :
    find_function (.functionDef f :: rest) nm = some f := by
  simp [find_function, hf]

theorem replaceFirstFn_cons_skip (s : Stmt) (rest : List Stmt) (nm : String)
    (g : FunctionNode) (h : isFnNamed s nm = false) :
    replaceFirstFn (s :: rest) nm g = s :: replaceFirstFn rest nm g := by
  cases s <;> simp_all [replaceFirstFn, isFnNamed]

theorem replaceFirstFn_append_skip (pre rest : List Stmt) (nm : String) (g : FunctionNode)
    (h : ∀ s ∈ pre, isFnNamed s nm = false) :
    replaceFirstFn (pre ++ rest) nm g = pre ++ replaceFirstFn rest nm g := by
  induction pre with
  | nil => rfl
  | cons s r ih =>
    rw [List.cons_append, replaceFirstFn_cons_skip s (r ++ rest) nm g (h s (by simp)),
      ih fun x hx => h x (by simp [hx]), List.cons_append]

theorem replaceFirstFn_cons_hit (f : FunctionNode) (rest : List Stmt) (nm : String)
    (g : FunctionNode) (hf : f.name = nm) :
    replaceFirstFn (.functionDef f :: rest) nm g = .functionDef (mergeFn f g) :: rest := by
  simp [replaceFirstFn, hf]

theorem arg_subst_id {P : Arg → Prop} [DecidablePred P] (l : List Arg) :
    (l.map fun arg => if P arg then Arg.mk arg.name arg.ann else arg) = l := by
  induction l with
  | nil => rfl
  | cons a r ih =>
    cases a with
    | mk n an =>
      simp only [List.map_cons, ih]
      congr 1
      split <;> rfl

/-- The merged node spelled out: `body`, `returns` and `args.args` come
from the donor, everything else from the host. -/
theorem mergeFn_eq (f g : FunctionNode) :
    mergeFn f g = .mk f.isAsync f.name
      (.mk f.args.posonlyargs g.args.args f.args.vararg f.args.kwonlyargs
        f.args.kwDefaults f.args.kwarg f.args.defaults)
      g.body f.decorators g.returns := by
  cases f with
  | mk a n ar b d r =>
    cases ar with
    | mk po aa v ko kd kw df =>
      cases g with
      | mk a2 n2 ar2 b2 d2 r2 =>
        cases ar2 with
        | mk po2 aa2 v2 ko2 kd2 kw2 df2 =>
          simp [mergeFn, update_args, FunctionNode.withBodyReturns, FunctionNode.withArgsArgs,
            FunctionNode.isAsync, FunctionNode.name, FunctionNode.args, FunctionNode.body,
            FunctionNode.decorators, FunctionNode.returns, Arguments.posonlyargs, Arguments.args,
            Arguments.vararg, Arguments.kwonlyargs, Arguments.kwDefaults, Arguments.kwarg,
            Arguments.defaults, arg_subst_id]

/-- Full characterization of `replace_function` on a host whose first
function named `nm` sits after the prefix `pre`: that node is rewritten to
`mergeFn f g`, `pre` and `post` are returned verbatim. -/
theorem replace_function_eq (pre post : List Stmt) (f g : FunctionNode) (nm : String)
    (d : Module) (hpre : ∀ s ∈ pre, isFnNamed s nm = false) (hf : f.name = nm)
    (hd : extract_function_ast d nm = .ok g) :
    replace_function ⟨pre ++ .functionDef f :: post⟩ nm d
      = .ok ⟨pre ++ .functionDef (mergeFn f g) :: post⟩ := by
  unfold replace_function
  simp only [find_function_append_skip pre _ nm hpre, find_function_cons_hit f post nm hf, hd,
    replaceFirstFn_append_skip pre _ nm g hpre, replaceFirstFn_cons_hit f post nm g hf]

theorem findSome?_eq_none_of_all_none {α β : Type} (l : List α) (p : α → Option β)
    (h : ∀ a ∈ l, p a = none) : l.findSome? p = none := by
  induction l with
  | nil => rfl
  | cons a r ih =>
    have ha := h a (by simp)
    simp [List.findSome?, ha, ih fun x hx => h x (by simp [hx])]

theorem docstringProbe_eq_none (s : Stmt) (h : isFunctionDefStmt s = false) :
    docstringProbe s = none := by
  cases s <;> simp_all [docstringProbe, isFunctionDefStmt]

/-- The walk of a single-function fragment starts at the function and then
visits the function's body. -/
theorem walkStmts_fragment (f : FunctionNode) :
    walkStmts [Stmt.functionDef f] = Stmt.functionDef f :: walkStmts f.body := by
  cases f with
  | mk a n ar b d r =>
    rw [walkStmts_cons]
    simp [stmtChildren, FunctionNode.body]

theorem mkFragment_body (f : FunctionNode) :
    (mkFragment f).body = [Stmt.functionDef f] := rfl

/-- Sanity check: two copies of the source's own `abs` example (lines
69-70) that differ only in a docstring compare as structurally equal. -/
theorem compare_python_code_ignores_docstring :
    compare_python_code (.ok ⟨[.functionDef absDocFn]⟩) (.ok modPlain) = .ok true := rfl

/-! ## The claims -/

/-- Claim C1.  The claim: fragments that differ only in docstrings and/or
type annotations — including the annotations of annotated assignment
statements — compare as equal.  The code diverges on the annotated
assignment case: `remove_annotations` executes `del node.annotation`
(line 101, marked `# FIXME?`), `ast.unparse` then raises `AttributeError`
on the mutilated node, and the bare `except:` of lines 131-132 turns that
into `False`.  So on `def f():\n    x: int = 0` against
`def f():\n    x: str = 0` — which differ only in the annotation of the
annotated assignment — `compare_python_code` returns `False` where the
claim requires `True`. -/
theorem compare_python_code_annassign_false :
    compare_python_code (.ok fragAnnInt) (.ok fragAnnStr) = .ok false := rfl

/-- A source string that `ast.parse` rejects, e.g. `"def f(:"`. -/
def badSrc : PySrc := .error .parseError

/-- Claim C3, counterexample.  On the unparseable input modelled by
`badSrc` (e.g. `"def f(:"`), `compare_python_code` does not return false:
`ast.parse` runs before the `try:` block, so the `SyntaxError` propagates
to the caller. -/
theorem compare_python_code_raises_counterexample :
    compare_python_code badSrc (.ok modPlain) = .error .parseError ∧
    compare_python_code badSrc (.ok modPlain) ≠ .ok false := by
  refine ⟨rfl, fun h => ?_⟩
  have h2 : (Except.error PyErr.parseError : Except PyErr Bool) = .ok false := h
  exact Except.noConfusion h2

/-- Claim C3 (amended): when either input fails to parse,
`compare_python_code` RAISES the parse error instead of returning false —
both `ast.parse` calls (lines 120-121) sit outside the `try:` that guards
only the unparse-and-compare step. -/
theorem compare_python_code_propagates_parse_error (m : Module) (e : PyErr) (x : PySrc) :
    compare_python_code (.error e) x = .error e ∧
    compare_python_code (.ok m) (.error e) = .error e :=
  ⟨rfl, rfl⟩

/-- Claim C4, counterexample.  Host `def f(a, b): pass`, donor
`def f(c, a: int): pass`: after `replace_function` the parameter list is
exactly the donor's `[c, a]` — the host parameter `b`, whose name does not
appear in the donor, is dropped rather than retained. -/
def resultCA : Module :=
  ⟨[.functionDef (.mk false "f"
      (.mk [] [.mk "c" none, .mk "a" (some (.name "int"))] none [] [] none [])
      [.pass] [] none)]⟩

theorem replace_function_drops_host_param :
    replace_function hostAB "f" donorCA = .ok resultCA ∧
    topArgNames hostAB = ["a", "b"] ∧ topArgNames resultCA = ["c", "a"] ∧
    "b" ∉ topArgNames resultCA := by
  refine ⟨rfl, rfl, rfl, ?_⟩
  decide

/-- Claim C4 (amended): `replace_function` REPLACES the positional-or-
keyword parameter list of the host function with the donor's list (donor
names, donor order, donor annotations): `update_args` (lines 58-67)
iterates only the donor's `args.args`, so host parameters whose names do
not appear in the donor are dropped, and donor-only parameters appear at
their donor positions. -/
theorem replace_function_takes_donor_params (pre post : List Stmt) (f g : FunctionNode)
    (nm : String) (d : Module)
    (hpre : ∀ s ∈ pre, isFnNamed s nm = false) (hf : f.name = nm)
    (hd : extract_function_ast d nm = .ok g) :
    replace_function ⟨pre ++ .functionDef f :: post⟩ nm d
      = .ok ⟨pre ++ .functionDef (mergeFn f g) :: post⟩
    ∧ (mergeFn f g).args.args = g.args.args
    ∧ ∀ a ∈ f.args.args, a.name ∉ g.args.args.map Arg.name →
        a.name ∉ (mergeFn f g).args.args.map Arg.name := by
  refine ⟨replace_function_eq pre post f g nm d hpre hf hd, ?_, ?_⟩
  · rw [mergeFn_eq]
    simp [FunctionNode.args, Arguments.args]
  · intro a ha hnot
    rw [mergeFn_eq]
    simpa [FunctionNode.args, Arguments.args] using hnot

/-- Claim C5, counterexample.  Host `def f(a): return a`, donor
`def f(x): return x`: the claim allows only the body, the return
annotation and the parameter ANNOTATIONS of `f` to change, yet the
parameter name itself changes from `a` to `x`. -/
def resultX : Module :=
  ⟨[.functionDef (.mk false "f" (.mk [] [.mk "x" none] none [] [] none [])
      [.ret (some (.name "x"))] [] none),
    .functionDef otherFnG]⟩

theorem replace_function_renames_param :
    replace_function hostA "f" donorX = .ok resultX ∧
    topArgNames hostA = ["a"] ∧ topArgNames resultX = ["x"] ∧
    topArgNames resultX ≠ topArgNames hostA := by
  refine ⟨rfl, rfl, rfl, ?_⟩
  decide

/-- Claim C5 (amended): `replace_function` rewrites only the located
function node — its body, return annotation and positional-or-keyword
parameter LIST (names included) come from the donor, while its name, kind,
decorators and all other parameter kinds stay the host's — and every other
top-level statement of the host (the `pre` and `post` segments) is
returned verbatim, hence unparses identically. -/
theorem replace_function_frame (pre post : List Stmt) (f g : FunctionNode)
    (nm : String) (d : Module)
    (hpre : ∀ s ∈ pre, isFnNamed s nm = false) (hf : f.name = nm)
    (hd : extract_function_ast d nm = .ok g) :
    replace_function ⟨pre ++ .functionDef f :: post⟩ nm d
      = .ok ⟨pre ++ .functionDef (mergeFn f g) :: post⟩
    ∧ (mergeFn f g).name = f.name
    ∧ (mergeFn f g).isAsync = f.isAsync
    ∧ (mergeFn f g).decorators = f.decorators
    ∧ (mergeFn f g).args.posonlyargs = f.args.posonlyargs
    ∧ (mergeFn f g).args.kwonlyargs = f.args.kwonlyargs
    ∧ (mergeFn f g).args.vararg = f.args.vararg
    ∧ (mergeFn f g).args.kwarg = f.args.kwarg
    ∧ (mergeFn f g).args.kwDefaults = f.args.kwDefaults
    ∧ (mergeFn f g).args.defaults = f.args.defaults
    ∧ (mergeFn f g).body = g.body
    ∧ (mergeFn f g).returns = g.returns := by
  refine ⟨replace_function_eq pre post f g nm d hpre hf hd, ?_⟩
  rw [mergeFn_eq]
  simp [FunctionNode.name, FunctionNode.isAsync, FunctionNode.decorators, FunctionNode.args,
    FunctionNode.body, FunctionNode.returns, Arguments.posonlyargs, Arguments.kwonlyargs,
    Arguments.vararg, Arguments.kwarg, Arguments.kwDefaults, Arguments.defaults,
    Arguments.args]

/-- Witness for the amended C4 theorem at the concrete host `hostAB` and
donor `donorCA`. -/
theorem replace_function_takes_donor_params_witness :
    (∀ s ∈ ([] : List Stmt), isFnNamed s "f" = false) ∧
    hostFnAB.name = "f" ∧
    extract_function_ast donorCA "f" = .ok donorFnCA ∧
    (replace_function ⟨[] ++ .functionDef hostFnAB :: []⟩ "f" donorCA
        = .ok ⟨[] ++ .functionDef (mergeFn hostFnAB donorFnCA) :: []⟩
      ∧ (mergeFn hostFnAB donorFnCA).args.args = donorFnCA.args.args
      ∧ ∀ a ∈ hostFnAB.args.args, a.name ∉ donorFnCA.args.args.map Arg.name →
          a.name ∉ (mergeFn hostFnAB donorFnCA).args.args.map Arg.name) :=
  ⟨fun s hs => absurd hs (List.not_mem_nil s), rfl, rfl,
    replace_function_takes_donor_params [] [] hostFnAB donorFnCA "f" donorCA
      (fun s hs => absurd hs (List.not_mem_nil s)) rfl rfl⟩

/-- Witness for the amended C5 theorem at the concrete host `hostA`
(where `def g(): pass` follows the spliced function) and donor `donorX`. -/
theorem replace_function_frame_witness :
    (∀ s ∈ ([] : List Stmt), isFnNamed s "f" = false) ∧
    hostFnA.name = "f" ∧
    extract_function_ast donorX "f" = .ok donorFnX ∧
    (replace_function ⟨[] ++ .functionDef hostFnA :: [.functionDef otherFnG]⟩ "f" donorX
        = .ok ⟨[] ++ .functionDef (mergeFn hostFnA donorFnX) :: [.functionDef otherFnG]⟩
      ∧ (mergeFn hostFnA donorFnX).name = hostFnA.name
      ∧ (mergeFn hostFnA donorFnX).isAsync = hostFnA.isAsync
      ∧ (mergeFn hostFnA donorFnX).decorators = hostFnA.decorators
      ∧ (mergeFn hostFnA donorFnX).args.posonlyargs = hostFnA.args.posonlyargs
      ∧ (mergeFn hostFnA donorFnX).args.kwonlyargs = hostFnA.args.kwonlyargs
      ∧ (mergeFn hostFnA donorFnX).args.vararg = hostFnA.args.vararg
      ∧ (mergeFn hostFnA donorFnX).args.kwarg = hostFnA.args.kwarg
      ∧ (mergeFn hostFnA donorFnX).args.kwDefaults = hostFnA.args.kwDefaults
      ∧ (mergeFn hostFnA donorFnX).args.defaults = hostFnA.args.defaults
      ∧ (mergeFn hostFnA donorFnX).body = donorFnX.body
      ∧ (mergeFn hostFnA donorFnX).returns = donorFnX.returns) :=
  ⟨fun s hs => absurd hs (List.not_mem_nil s), rfl, rfl,
    replace_function_frame [] [.functionDef otherFnG] hostFnA donorFnX "f" donorX
      (fun s hs => absurd hs (List.not_mem_nil s)) rfl rfl⟩

/-- Claim C6, counterexample.  A fragment whose function has no docstring
but contains a nested function that has one: `ast.walk` does not stop at
the outer function (its first statement is not a string), reaches the
nested `def g` and returns `True`, while the claim — which looks only at
the fragment's own function — requires `False`. -/
theorem has_docstring_nested_counterexample :
    has_docstring (mkFragment nestedDocFn) = true ∧
    specHasDocumentation (mkFragment nestedDocFn) = false := by
  constructor
  · simp only [mkFragment, nestedDocFn, has_docstring, walkStmts_cons, walkStmts_nil,
      stmtChildren, List.append_nil, List.nil_append, List.cons_append]
    rfl
  · rfl

/-- Claim C6 (amended): for a fragment whose function contains no nested
function definition, `has_docstring` agrees with the spec's
`hasDocumentation` — true iff the function's first body statement is a
string literal with non-empty text; in general the first breadth-first
walked function whose leading statement is a string literal decides the
answer, so a nested function's docstring can decide it. -/
theorem has_docstring_eq_spec_of_flat (f : FunctionNode)
    (h : (walkStmts f.body).all (fun s => !isFunctionDefStmt s) = true) :
    has_docstring (mkFragment f) = specHasDocumentation (mkFragment f) := by
  have hall : ∀ s ∈ walkStmts f.body, isFunctionDefStmt s = false := by
    intro s hs
    simpa using List.all_eq_true.mp h s hs
  have hnone : (walkStmts f.body).findSome? docstringProbe = none :=
    findSome?_eq_none_of_all_none _ _ fun s hs => docstringProbe_eq_none s (hall s hs)
  unfold has_docstring specHasDocumentation firstTopFunction
  rw [mkFragment_body, walkStmts_fragment]
  cases f with
  | mk a n ar b d r =>
    simp only [FunctionNode.body] at hnone
    cases b with
    | nil => simp [mkFragment, List.findSome?, docstringProbe, FunctionNode.body, hnone]
    | cons s0 rest =>
      cases s0 with
      | exprStmt e =>
        cases e <;>
          simp [mkFragment, List.findSome?, docstringProbe, FunctionNode.body, hnone]
      | _ => simp [mkFragment, List.findSome?, docstringProbe, FunctionNode.body, hnone]

/-- Witness for the amended C6 theorem at the concrete fragment
`absDocFn`, which nests no function. -/
theorem has_docstring_eq_spec_of_flat_witness :
    (walkStmts absDocFn.body).all (fun s => !isFunctionDefStmt s) = true ∧
    has_docstring (mkFragment absDocFn) = specHasDocumentation (mkFragment absDocFn) :=
  ⟨by
    simp only [absDocFn, FunctionNode.body, walkStmts_cons, walkStmts_nil, stmtChildren,
      List.append_nil, List.nil_append, List.cons_append]
    rfl,
   has_docstring_eq_spec_of_flat absDocFn (by
    simp only [absDocFn, FunctionNode.body, walkStmts_cons, walkStmts_nil, stmtChildren,
      List.append_nil, List.nil_append, List.cons_append]
    rfl)⟩

/-- Claim C7, counterexample.  `def f(a: int, *, b) -> int: pass`: the
keyword-only parameter `b` carries no annotation, yet `has_types` answers
`True` because line 149 inspects only `node.args.args` — the claim, over
EVERY parameter, requires `False`. -/
theorem has_types_kwonly_counterexample :
    has_types (mkFragment kwOnlyFn) = true ∧
    specIsFullyTyped (mkFragment kwOnlyFn) = false := by
  constructor
  · simp only [mkFragment, kwOnlyFn, has_types, walkStmts_cons, walkStmts_nil, stmtChildren,
      List.append_nil, List.nil_append, List.cons_append]
    rfl
  · rfl

/-- Claim C7 (amended): `has_types` on a single-function fragment is true
iff every POSITIONAL-OR-KEYWORD parameter (the `args.args` list — the only
parameters line 149 inspects) carries an annotation and the return
position is annotated; positional-only, keyword-only, vararg and kwarg
parameters are not checked. -/
theorem has_types_checks_posargs_only (f : FunctionNode) :
    has_types (mkFragment f) = true ↔
      (∀ a ∈ f.args.args, a.ann ≠ none) ∧ f.returns ≠ none := by
  unfold has_types
  rw [mkFragment_body, walkStmts_fragment]
  simp [List.findSome?, List.all_eq_true, Option.isSome_iff_ne_none, Bool.and_eq_true]

/-! ## Driver-loop lemmas -/

/-- An iteration that finds the extracted source already documented and
fully typed breaks out at once: no request, file unchanged (lines
320-322). -/
theorem commentate_try_skip (parseFn : String → Option Module) (backend : Nat → BackendResponse)
    (fname : String) (code : Module) (nm : String) (fuel k : Nat) (f : FunctionNode)
    (hf : extract_function_ast code nm = .ok f)
    (hd : has_docstring (mkFragment f) = true)
    (ht : has_types (mkFragment f) = true) :
    commentate_try parseFn backend fname code nm (fuel + 1) k = .ok (code, k) := by
  simp only [commentate_try, extract_function_source, hf, hd, ht]
  simp

/-- An iteration whose generation request hits the fatal
`AuthenticationError` ends in `sys.exit(1)` (lines 35-40). -/
theorem commentate_try_auth (parseFn : String → Option Module) (backend : Nat → BackendResponse)
    (fname : String) (code : Module) (nm : String) (fuel k : Nat) (f : FunctionNode)
    (hf : extract_function_ast code nm = .ok f)
    (hneed : (has_docstring (mkFragment f) && has_types (mkFragment f)) = false)
    (hb : backend k = .authError) :
    commentate_try parseFn backend fname code nm (fuel + 1) k = .error .systemExit := by
  simp only [commentate_try, extract_function_source, hf, hneed, hb]
  simp [get_comments]

/-- An iteration whose generation request hits the transient `APIError`
gets `None` back (line 41-43) and crashes at the subscription of line
327. -/
theorem commentate_try_api_error (parseFn : String → Option Module)
    (backend : Nat → BackendResponse)
    (fname : String) (code : Module) (nm : String) (fuel k : Nat) (f : FunctionNode)
    (hf : extract_function_ast code nm = .ok f)
    (hneed : (has_docstring (mkFragment f) && has_types (mkFragment f)) = false)
    (hb : backend k = .apiError) :
    commentate_try parseFn backend fname code nm (fuel + 1) k = .error .typeError := by
  simp only [commentate_try, extract_function_source, hf, hneed, hb]
  simp [get_comments, completion_content]

/-- An iteration on a file whose name does not map to Python skips the
`try:` that assigns `result_ast` and dies at `if result_ast:`
(lines 334-341). -/
theorem commentate_try_non_python (parseFn : String → Option Module)
    (backend : Nat → BackendResponse)
    (fname : String) (code : Module) (nm : String) (fuel k : Nat) (f : FunctionNode)
    (text : String) (fi : Int)
    (hlang : get_language_from_file_name fname ≠ "Python")
    (hf : extract_function_ast code nm = .ok f)
    (hneed : (has_docstring (mkFragment f) && has_types (mkFragment f)) = false)
    (hb : backend k = .completion text)
    (hfind : find_code_start text = .ok fi) :
    commentate_try parseFn backend fname code nm (fuel + 1) k = .error .nameError := by
  simp only [commentate_try, extract_function_source, hf, hneed, hb]
  simp [get_comments, completion_content, hlang, hfind]

/-- Claim C8: a function whose extracted source already has a docstring
and full types is resolved with NO generation request (the request counter
is untouched) and the working file unchanged — the `break` of line 322
runs before `get_comments` is called. -/
theorem commentate_skips_complete_function (parseFn : String → Option Module)
    (backend : Nat → BackendResponse)
    (fname : String) (code : Module) (nm : String) (k : Nat) (f : FunctionNode)
    (hf : extract_function_ast code nm = .ok f)
    (hd : has_docstring (mkFragment f) = true)
    (ht : has_types (mkFragment f) = true) :
    commentate_try parseFn backend fname code nm 3 k = .ok (code, k) :=
  commentate_try_skip parseFn backend fname code nm 2 k f hf hd ht

theorem absTyped_doc : has_docstring (mkFragment absTypedFn) = true := by
  simp only [mkFragment, absTypedFn, has_docstring, walkStmts_cons, walkStmts_nil,
    stmtChildren, List.append_nil, List.nil_append, List.cons_append]
  rfl

theorem absTyped_types : has_types (mkFragment absTypedFn) = true := by
  simp only [mkFragment, absTypedFn, has_types, walkStmts_cons, walkStmts_nil,
    stmtChildren, List.append_nil, List.nil_append, List.cons_append]
  rfl

theorem absPlain_needy :
    (has_docstring (mkFragment absPlainFn) && has_types (mkFragment absPlainFn)) = false := by
  simp only [mkFragment, absPlainFn, has_docstring, has_types, walkStmts_cons, walkStmts_nil,
    stmtChildren, List.append_nil, List.nil_append, List.cons_append]
  rfl

/-- Witness for C8 at the concrete file `modTyped`. -/
theorem commentate_skips_complete_function_witness :
    extract_function_ast modTyped "abs" = .ok absTypedFn ∧
    has_docstring (mkFragment absTypedFn) = true ∧
    has_types (mkFragment absTypedFn) = true ∧
    commentate_try (fun _ => none) (fun _ => .apiError) "a.py" modTyped "abs" 3 0
      = .ok (modTyped, 0) :=
  ⟨rfl, absTyped_doc, absTyped_types,
    commentate_skips_complete_function (fun _ => none) (fun _ => .apiError) "a.py" modTyped
      "abs" 0 absTypedFn rfl absTyped_doc absTyped_types⟩

/-- Claim C9: when the backend reports the fatal authentication failure on
the request for a function that needs annotating, the whole run aborts
with `sys.exit(1)` after the operator-facing diagnostic of lines 36-38;
the request is not retried and none of the remaining functions (`rest`)
are processed — the `SystemExit` propagates out of `commentate`
uncaught. -/
theorem commentate_auth_failure_aborts (parseFn : String → Option Module)
    (backend : Nat → BackendResponse)
    (fname : String) (code : Module) (nm : String) (rest : List String) (k : Nat)
    (f : FunctionNode)
    (hf : extract_function_ast code nm = .ok f)
    (hneed : (has_docstring (mkFragment f) && has_types (mkFragment f)) = false)
    (hb : backend k = .authError) :
    commentate_go parseFn backend fname (nm :: rest) code k = .error .systemExit := by
  have h3 : commentate_try parseFn backend fname code nm 3 k = .error .systemExit :=
    commentate_try_auth parseFn backend fname code nm 2 k f hf hneed hb
  simp [commentate_go, h3]

/-- Witness for C9: a run on `modPlain` whose backend immediately reports
the authentication failure; the pending function `"g"` is never reached. -/
theorem commentate_auth_failure_aborts_witness :
    extract_function_ast modPlain "abs" = .ok absPlainFn ∧
    (has_docstring (mkFragment absPlainFn) && has_types (mkFragment absPlainFn)) = false ∧
    (fun _ : Nat => BackendResponse.authError) 0 = .authError ∧
    commentate_go (fun _ => none) (fun _ => .authError) "a.py" ["abs", "g"] modPlain 0
      = .error .systemExit :=
  ⟨rfl, absPlain_needy, rfl,
    commentate_auth_failure_aborts (fun _ => none) (fun _ => .authError) "a.py" modPlain
      "abs" ["g"] 0 absPlainFn rfl absPlain_needy rfl⟩

/-- Claim C2.  The claim: a transient backend failure is treated as an
empty candidate and drives a retry within the normal budget, never
crashing the run.  The code diverges: `get_comments` returns `None` on
`openai.error.APIError` (lines 41-43, whose comment even hopes "retries
will work"), but `commentate` immediately subscripts the result —
`c['choices'][0]['message']['content']`, line 327 — so the run crashes
with `TypeError: 'NoneType' object is not subscriptable` instead of
retrying. -/
theorem commentate_transient_failure_crashes (parseFn : String → Option Module)
    (backend : Nat → BackendResponse)
    (fname : String) (code : Module) (nm : String) (rest : List String) (k : Nat)
    (f : FunctionNode)
    (hf : extract_function_ast code nm = .ok f)
    (hneed : (has_docstring (mkFragment f) && has_types (mkFragment f)) = false)
    (hb : backend k = .apiError) :
    commentate_go parseFn backend fname (nm :: rest) code k = .error .typeError := by
  have h3 : commentate_try parseFn backend fname code nm 3 k = .error .typeError :=
    commentate_try_api_error parseFn backend fname code nm 2 k f hf hneed hb
  simp [commentate_go, h3]

/-- Witness for C2: a run on `modPlain` whose backend reports the
transient `APIError` on the first request. -/
theorem commentate_transient_failure_crashes_witness :
    extract_function_ast modPlain "abs" = .ok absPlainFn ∧
    (has_docstring (mkFragment absPlainFn) && has_types (mkFragment absPlainFn)) = false ∧
    (fun _ : Nat => BackendResponse.apiError) 0 = .apiError ∧
    commentate_go (fun _ => none) (fun _ => .apiError) "a.py" ["abs"] modPlain 0
      = .error .typeError :=
  ⟨rfl, absPlain_needy, rfl,
    commentate_transient_failure_crashes (fun _ => none) (fun _ => .apiError) "a.py" modPlain
      "abs" [] 0 absPlainFn rfl absPlain_needy rfl⟩

/-- Claim C10: on a file whose extension does not map to Python, once the
run reaches a function that lacks a docstring or full types (all earlier
functions being already complete) and the backend answers with a
completion whose text `find_code_start` can process, the `if result_ast:`
of line 341 reads the local `result_ast` that the skipped Python-only
`try:` of lines 334-340 alone assigns — the run raises the unhandled
`UnboundLocalError` (a `NameError`) instead of bypassing structural
validation. -/
theorem commentate_non_python_name_error (parseFn : String → Option Module)
    (backend : Nat → BackendResponse)
    (fname : String) (code : Module) (pre : List String) (nm : String) (rest : List String)
    (k : Nat) (f : FunctionNode) (text : String) (fi : Int)
    (hlang : get_language_from_file_name fname ≠ "Python")
    (hsat : ∀ p ∈ pre, ∃ fp, extract_function_ast code p = .ok fp ∧
      has_docstring (mkFragment fp) = true ∧ has_types (mkFragment fp) = true)
    (hf : extract_function_ast code nm = .ok f)
    (hneed : (has_docstring (mkFragment f) && has_types (mkFragment f)) = false)
    (hb : backend k = .completion text)
    (hfind : find_code_start text = .ok fi) :
    commentate_go parseFn backend fname (pre ++ nm :: rest) code k = .error .nameError := by
  induction pre with
  | nil =>
    have h3 : commentate_try parseFn backend fname code nm 3 k = .error .nameError :=
      commentate_try_non_python parseFn backend fname code nm 2 k f text fi hlang hf hneed
        hb hfind
    simp [commentate_go, h3]
  | cons p pre' ih =>
    obtain ⟨fp, h1, h2, h3⟩ := hsat p (by simp)
    have hskip : commentate_try parseFn backend fname code p 3 k = .ok (code, k) :=
      commentate_try_skip parseFn backend fname code p 2 k fp h1 h2 h3
    rw [List.cons_append]
    simp only [commentate_go, hskip]
    exact ih fun q hq => hsat q (by simp [hq])

/-- Witness for C10: the non-Python file `a.js` with the needy `modPlain`
and a backend answering the plain text `"x"` (for which `find_code_start`
returns `-1`). -/
theorem commentate_non_python_name_error_witness :
    get_language_from_file_name "a.js" ≠ "Python" ∧
    extract_function_ast modPlain "abs" = .ok absPlainFn ∧
    (has_docstring (mkFragment absPlainFn) && has_types (mkFragment absPlainFn)) = false ∧
    (fun _ : Nat => BackendResponse.completion "x") 0 = .completion "x" ∧
    find_code_start "x" = .ok (-1) ∧
    commentate_go (fun _ => none) (fun _ => .completion "x") "a.js" (["abs"] : List String)
      modPlain 0 = .error .nameError :=
  ⟨by decide, rfl, absPlain_needy, rfl, rfl,
    commentate_non_python_name_error (fun _ => none) (fun _ => .completion "x") "a.js"
      modPlain [] "abs" [] 0 absPlainFn "x" (-1) (by decide)
      (fun p hp => absurd hp (List.not_mem_nil p)) rfl absPlain_needy rfl rfl⟩

end Commentator
